import Mathlib

/-!
Verification development for the Faster R-CNN driver script
(`Examples/Image/Detection/FasterRCNN/FasterRCNN.py`).

The Python source is shallowly embedded: module-level configuration
dispatch, the reader construction, the model-cloning helper, the layer
shape computations, the ground-truth row filtering of the evaluation
path, the inference box regression loop (`regress_rois`), the image
resize-and-pad geometry, and the statement order of the mAP evaluation
loop are each translated into executable Lean definitions.  Machine
floats of the source are modelled by rationals, numpy arrays by lists,
and Python exceptions by `Except`/`Option` results.
-/

/-! ### Module-level configuration dispatch (FasterRCNN.py lines 65-113) -/

/-- Dataset-specific parameters bound by the module-level `if dataset == ...`
chain: the class-name tuple, map/roi file names, epoch size and test-image
count. -/
structure DatasetConfig where
  classes : List String
  train_map_file : String
  test_map_file : String
  train_roi_file : String
  test_roi_file : String
  num_classes : Nat
  epoch_size : Nat
  num_test_images : Nat
  deriving Repr, DecidableEq

/-- Base-model-specific parameters bound by the module-level
`if base_model_to_use == ...` chain. -/
structure BaseModelConfig where
  base_model_file : String
  feature_node_name : String
  last_conv_node_name : String
  pool_node_name : String
  last_hidden_node_name : String
  roi_dim : Nat
  deriving Repr, DecidableEq

/-- The Grocery class tuple of FasterRCNN.py lines 67-69. -/
def grocery_classes : List String :=
  ["__background__",
   "avocado", "orange", "butter", "champagne", "eggBox", "gerkin", "joghurt", "ketchup",
   "orangeJuice", "onion", "pepper", "tomato", "water", "milk", "tabasco", "mustard"]

/-- The Pascal VOC class tuple of FasterRCNN.py lines 79-81. -/
def pascal_classes : List String :=
  ["__background__",
   "aeroplane", "bicycle", "bird", "boat", "bottle", "bus", "car", "cat", "chair", "cow",
   "diningtable", "dog", "horse", "motorbike", "person", "pottedplant", "sheep", "sofa",
   "train", "tvmonitor"]

/-- Module-level dataset dispatch (lines 65-91): `Grocery` and `Pascal` bind
their parameter blocks, anything else raises
a ValueError whose message is unknown data set: followed by the name. -/
def dataset_setup (dataset : String) : Except String DatasetConfig :=
  if dataset = "Grocery" then
    .ok { classes := grocery_classes
          train_map_file := "Data/Grocery/train.imgMap.txt"
          test_map_file := "Data/Grocery/test.imgMap.txt"
          train_roi_file := "Data/Grocery/train.GTRois.txt"
          test_roi_file := "Data/Grocery/test.GTRois.txt"
          num_classes := grocery_classes.length
          epoch_size := 20
          num_test_images := 5 }
  else if dataset = "Pascal" then
    .ok { classes := pascal_classes
          train_map_file := "Data/Pascal/trainval2007.txt"
          test_map_file := "Data/Pascal/test2007.txt"
          train_roi_file := "Data/Pascal/trainval2007_rois_topleft_wh_rel.txt"
          test_roi_file := "Data/Pascal/test2007_rois_topleft_wh_rel.txt"
          num_classes := pascal_classes.length
          epoch_size := 5010
          num_test_images := 4952 }
  else
    .error ("unknown data set: " ++ dataset)

/-- Module-level base-model dispatch (lines 94-113): `AlexNet` and `VGG16`
bind their parameter blocks, anything else raises
a ValueError whose message is unknown base model: followed by the name. -/
def base_model_setup (base_model_to_use : String) : Except String BaseModelConfig :=
  if base_model_to_use = "AlexNet" then
    .ok { base_model_file := "PretrainedModels/AlexNet.model"
          feature_node_name := "features"
          last_conv_node_name := "conv5.y"
          pool_node_name := "pool3"
          last_hidden_node_name := "h2_d"
          roi_dim := 6 }
  else if base_model_to_use = "VGG16" then
    .ok { base_model_file := "PretrainedModels/VGG16_ImageNet.cntkmodel"
          feature_node_name := "data"
          last_conv_node_name := "conv5_3"
          pool_node_name := "pool5"
          last_hidden_node_name := "drop7"
          roi_dim := 7 }
  else
    .error ("unknown base model: " ++ base_model_to_use)

/-- Module setup: the dataset block (lines 65-91) runs first, then the
base-model block (lines 94-113); the first failing check aborts the import,
so neither training nor evaluation code (which follows under
the main guard) ever runs on error. -/
def module_setup (dataset base_model_to_use : String) :
    Except String (DatasetConfig × BaseModelConfig) := do
  let dc ← dataset_setup dataset
  let mc ← base_model_setup base_model_to_use
  return (dc, mc)

/-! ### create_mb_source (lines 119-140) -/

/-- The reader object assembled by `create_mb_source` once the existence
check has passed: a composite minibatch source over the image deserializer
and the CTF roi deserializer with `rois_dim = 5 * n_rois`. -/
structure MbSourceSpec where
  img_map_file : String
  roi_map_file : String
  rois_dim : Nat
  randomize : Bool
  deriving Repr, DecidableEq

/-- `create_mb_source` (lines 119-140).  File-system state is passed in as
the two existence booleans; the source raises
a RuntimeError naming both map files when either one is missing and otherwise builds the composite reader. -/
def create_mb_source (img_map_exists roi_map_exists : Bool)
    (img_map_file roi_map_file : String) (n_rois : Nat) (randomize : Bool) :
    Except String MbSourceSpec :=
  let rois_dim := 5 * n_rois
  if !img_map_exists || !roi_map_exists then
    .error ("File \x27" ++ img_map_file ++ "\x27 or \x27" ++ roi_map_file ++
      "\x27 does not exist. Please run install_fastrcnn.py from Examples/Image/Detection/FastRCNN to fetch them")
  else
    .ok { img_map_file := img_map_file
          roi_map_file := roi_map_file
          rois_dim := rois_dim
          randomize := randomize }

/-! ### clone_model (lines 142-153) -/

/-- An abstract node of a CNTK model graph; `find_by_name` is modelled as a
lookup function `String → Option GraphNode`. -/
structure GraphNode where
  node_id : Nat
  deriving Repr, DecidableEq

/-- The value `clone_model` returns: the cloned network built by
`combine(to_nodes).clone(...)` from the looked-up node lists (missing
nodes appear as `none`, exactly as Python keeps `None` in the lists). -/
structure ClonedNet where
  from_nodes : List (Option GraphNode)
  to_nodes : List (Option GraphNode)
  deriving Repr, DecidableEq

/-- `clone_model` (lines 142-153).  When a requested node is not found the
function only prints an error line (collected here as the first component)
and still proceeds to build and return the clone; there is no raise path. -/
def clone_model (find_by_name : String → Option GraphNode)
    (from_node_names to_node_names : List String) : List String × ClonedNet :=
  let from_nodes := from_node_names.map find_by_name
  let errs₁ :=
    if none ∈ from_nodes then
      ["Error: could not find all specified \x27from_nodes\x27 in clone."]
    else []
  let to_nodes := to_node_names.map find_by_name
  let errs₂ :=
    if none ∈ to_nodes then
      ["Error: could not find all specified \x27to_nodes\x27 in clone."]
    else []
  (errs₁ ++ errs₂, { from_nodes := from_nodes, to_nodes := to_nodes })

/-! ### RPN and detection-head layer shapes (lines 155-177 and 225-232) -/

/-- Output channel count of the RPN classification convolution
`Convolution((1, 1), 18, ...)` of line 158 (2 bg/fg times 9 anchors). -/
def rpn_cls_score_num_channels : Nat := 18

/-- Output channel count of the RPN regression convolution
`Convolution((1, 1), 36, ...)` of line 159 (4 coords times 9 anchors). -/
def rpn_bbox_pred_num_channels : Nat := 36

/-- `num_anchors = int(rpn_cls_score.shape[0] / 2)` of line 171. -/
def rpn_num_anchors : Nat := rpn_cls_score_num_channels / 2

/-- A contiguous channel range `[lo, hi)` taken by `slice(x, 0, lo, hi)`. -/
structure ChannelSlice where
  lo : Nat
  hi : Nat
  deriving Repr, DecidableEq

/-- `bg_scores = slice(rpn_cls_score, 0, 0, num_anchors)` of line 173. -/
def bg_scores_slice : ChannelSlice := ⟨0, rpn_num_anchors⟩

/-- `fg_scores = slice(rpn_cls_score, 0, num_anchors, num_anchors * 2)` of
line 174. -/
def fg_scores_slice : ChannelSlice := ⟨rpn_num_anchors, rpn_num_anchors * 2⟩

/-- Per-ROI width of the detection-head regression output: the parameter
`W_regr` of line 230 has shape `(4096, num_classes*4)`, so `bbox_pred`
holds `num_classes*4` values per ROI. -/
def bbox_regr_dim (num_classes : Nat) : Nat := num_classes * 4

/-! ### Ground-truth row extraction of the evaluation path (lines 695-697) -/

/-- One row of the `(num_input_rois, 5)` ground-truth table:
`(x1, y1, x2, y2, classLabel)`, all read as the numeric type of the reader. -/
structure GtRow where
  x1 : ℚ
  y1 : ℚ
  x2 : ℚ
  y2 : ℚ
  label : ℚ
  deriving Repr, DecidableEq

/-- `gt_row.reshape((num_input_rois, 5))` of line 696: cut the flat reader
row into consecutive 5-tuples. -/
def reshape_gt_rows : List ℚ → List GtRow
  | x1 :: y1 :: x2 :: y2 :: lab :: rest => ⟨x1, y1, x2, y2, lab⟩ :: reshape_gt_rows rest
  | _ => []

/-- `gt_boxes = gt_boxes[np.where(gt_boxes[:,-1] > 0)]` of line 697: keep
exactly the rows whose last component is strictly positive. -/
def filter_gt_rows (rows : List GtRow) : List GtRow :=
  rows.filter fun r => 0 < r.label

/-- The ground-truth boxes the evaluation loop works with: reshape the flat
row, then drop the padding rows. -/
def eval_gt_boxes (gt_row : List ℚ) : List GtRow :=
  filter_gt_rows (reshape_gt_rows gt_row)

/-! ### Box geometry (regress_rois, lines 616-626) -/

/-- A box in corner form `(x1, y1, x2, y2)`. -/
structure Box where
  x1 : ℚ
  y1 : ℚ
  x2 : ℚ
  y2 : ℚ
  deriving Repr, DecidableEq

/-- A regression delta `(dx, dy, dw, dh)`. -/
structure Delta where
  dx : ℚ
  dy : ℚ
  dw : ℚ
  dh : ℚ
  deriving Repr, DecidableEq

/-- Modelled from the spec: `bbox_transform_inv` is imported from
`lib.fast_rcnn.bbox_transform`, which is not part of this repository
snapshot; the spec describes it as `decodeDelta` (4.1), the inverse of
`encodeDelta` with `dx=(gt.cx-anchor.cx)/anchor.w`, `dw=log(gt.w/anchor.w)`
and the y/h analogues.  The exponential (the inverse of the log of the spec)
is passed in as an explicit function `rexp` so the definition stays
executable over ℚ; every theorem below holds for an arbitrary `rexp`. -/
def bbox_transform_inv (rexp : ℚ → ℚ) (b : Box) (d : Delta) : Box :=
  let w := b.x2 - b.x1
  let h := b.y2 - b.y1
  let cx := b.x1 + w / 2
  let cy := b.y1 + h / 2
  let pcx := cx + d.dx * w
  let pcy := cy + d.dy * h
  let pw := rexp d.dw * w
  let ph := rexp d.dh * h
  { x1 := pcx - pw / 2
    y1 := pcy - ph / 2
    x2 := pcx + pw / 2
    y2 := pcy + ph / 2 }

/-- The 4-column slice `roi_regression_factors[i:i+1, label*4:(label+1)*4]`
of line 620, read out of the row for one proposal: entries
`[4*label, 4*label+4)` of the per-class regression vector.  `none` when the
vector is too short for the requested class (numpy would fail the
broadcast of line 625 in that case). -/
def delta_slice (row : List ℚ) (label : Nat) : Option Delta :=
  match row[4 * label]?, row[4 * label + 1]?, row[4 * label + 2]?, row[4 * label + 3]? with
  | some a, some b, some c, some d => some ⟨a, b, c, d⟩
  | _, _, _, _ => none

/-- One iteration of the `regress_rois` loop (lines 618-625) at index `i`
with label `labels[i]`: when the label is positive, row `i` of the proposal
array is overwritten in place with the decoded box; `none` models the
IndexError / broadcast error when row `i` or its delta slice is missing. -/
def regress_step (rexp : ℚ → ℚ) (roi_regression_factors : List (List ℚ))
    (roi_proposals : List Box) (i : Nat) (label : ℤ) : Option (List Box) :=
  if 0 < label then
    match roi_proposals[i]?,
        delta_slice ((roi_regression_factors[i]?).getD []) label.toNat with
    | some b, some d => some (roi_proposals.set i (bbox_transform_inv rexp b d))
    | _, _ => none
  else
    some roi_proposals

/-- The `for i in range(len(labels))` loop of `regress_rois`, iterating over
the indexed labels and threading the (mutated) proposal array through. -/
def regress_loop (rexp : ℚ → ℚ) (roi_regression_factors : List (List ℚ)) :
    List (Nat × ℤ) → List Box → Option (List Box)
  | [], roi_proposals => some roi_proposals
  | (i, label) :: rest, roi_proposals =>
    match regress_step rexp roi_regression_factors roi_proposals i label with
    | some roi_proposals' => regress_loop rexp roi_regression_factors rest roi_proposals'
    | none => none

/-- `regress_rois(roi_proposals, roi_regression_factors, labels)`
(lines 616-626): run the loop over `enumerate(labels)` and return the
proposal array. -/
def regress_rois (rexp : ℚ → ℚ) (roi_proposals : List Box)
    (roi_regression_factors : List (List ℚ)) (labels : List ℤ) : Option (List Box) :=
  regress_loop rexp roi_regression_factors (List.enumFrom 0 labels) roi_proposals

/-- Final contents of the `roi_proposals` argument after `regress_rois`
returns: line 625 assigns `roi_proposals[i,:] = regressed_rois` in place,
so the array of the caller ends up holding exactly the returned rows (the
function returns the very same array object). -/
def regress_rois_final_proposals (rexp : ℚ → ℚ) (roi_proposals : List Box)
    (roi_regression_factors : List (List ℚ)) (labels : List ℤ) : Option (List Box) :=
  regress_rois rexp roi_proposals roi_regression_factors labels

/-! ### numpy argmax over one score row (line 705) -/

/-- `np.argmax` over one row of `out_cls_pred`: index of the first maximal
entry (0 on the empty row, where numpy raises instead). -/
def np_argmax : List ℚ → Nat
  | [] => 0
  | [_] => 0
  | x :: y :: ys =>
    let j := np_argmax (y :: ys)
    if x < (y :: ys).getD j 0 then j + 1 else 0

/-- `labels = out_cls_pred.argmax(axis=1)` of line 705 followed by
`regress_rois(out_rpn_rois, out_bbox_regr, labels)` of line 707: the
regression step of the mAP evaluation path. -/
def mAP_regressed_rois (rexp : ℚ → ℚ) (out_rpn_rois : List Box)
    (out_bbox_regr : List (List ℚ)) (out_cls_pred : List (List ℚ)) : Option (List Box) :=
  regress_rois rexp out_rpn_rois out_bbox_regr
    (out_cls_pred.map fun row => (np_argmax row : ℤ))

/-! ### load_resize_and_pad (lines 585-614) -/

/-- Modelled external library behavior: `np.round` rounds a real value to
the nearest integer, ties to the nearest even integer (IEEE
round-half-even, the documented numpy behavior). -/
def roundHalfEven (q : ℚ) : ℤ :=
  if q - ⌊q⌋ < 1 / 2 then ⌊q⌋
  else if 1 / 2 < q - ⌊q⌋ then ⌊q⌋ + 1
  else if ⌊q⌋ % 2 = 0 then ⌊q⌋ else ⌊q⌋ + 1

/-- `scale_w = img_width > img_height` of line 590. -/
def lrp_scale_w (img_h img_w : Nat) : Bool := img_h < img_w

/-- `target_w` after lines 592-598: `width` when scaling on the width,
otherwise `int(np.round(img_width * float(height) / float(img_height)))`. -/
def lrp_target_w (img_h img_w width height : Nat) : ℤ :=
  if lrp_scale_w img_h img_w then (width : ℤ)
  else roundHalfEven ((img_w : ℚ) * (height : ℚ) / (img_h : ℚ))

/-- `target_h` after lines 592-598: `height` when scaling on the height,
otherwise `int(np.round(img_height * float(width) / float(img_width)))`. -/
def lrp_target_h (img_h img_w width height : Nat) : ℤ :=
  if lrp_scale_w img_h img_w then roundHalfEven ((img_h : ℚ) * (width : ℚ) / (img_w : ℚ))
  else (height : ℤ)

/-- `top = int(max(0, np.round((height - target_h) / 2)))` of line 602. -/
def lrp_top (img_h img_w width height : Nat) : ℤ :=
  max 0 (roundHalfEven (((height : ℚ) - (lrp_target_h img_h img_w width height : ℚ)) / 2))

/-- `left = int(max(0, np.round((width - target_w) / 2)))` of line 603. -/
def lrp_left (img_h img_w width height : Nat) : ℤ :=
  max 0 (roundHalfEven (((width : ℚ) - (lrp_target_w img_h img_w width height : ℚ)) / 2))

/-- `bottom = height - top - target_h` of line 605. -/
def lrp_bottom (img_h img_w width height : Nat) : ℤ :=
  (height : ℤ) - lrp_top img_h img_w width height - lrp_target_h img_h img_w width height

/-- `right = width - left - target_w` of line 606. -/
def lrp_right (img_h img_w width height : Nat) : ℤ :=
  (width : ℤ) - lrp_left img_h img_w width height - lrp_target_w img_h img_w width height

/-- Modelled external library behavior: `cv2.resize(img, (w, h), ...)`
produces an image of `h` rows and `w` columns and fails (raises
`cv2.error`) unless the requested size is positive. -/
def cv2_resize_dims (dsize_w dsize_h : ℤ) : Option (ℤ × ℤ) :=
  if 0 < dsize_w ∧ 0 < dsize_h then some (dsize_h, dsize_w) else none

/-- Modelled external library behavior: `cv2.copyMakeBorder` adds the four
borders to the image dimensions and fails (raises `cv2.error`, assertion
`top >= 0 && bottom >= 0 && left >= 0 && right >= 0`) on any negative
border width. -/
def cv2_copyMakeBorder_dims (h w top bottom left right : ℤ) : Option (ℤ × ℤ) :=
  if 0 ≤ top ∧ 0 ≤ bottom ∧ 0 ≤ left ∧ 0 ≤ right then
    some (h + top + bottom, w + left + right)
  else none

/-- Dimension behavior of `load_resize_and_pad` (lines 585-614) on a
source image of `img_h × img_w` pixels and a requested `width × height`
canvas: resize to `(target_w, target_h)`, then pad with the four computed
borders; `some (rows, cols)` is the pixel size of `resized_with_pad`,
`none` models an exception escaping the function. -/
def load_resize_and_pad_dims (img_h img_w width height : Nat) : Option (ℤ × ℤ) :=
  match cv2_resize_dims (lrp_target_w img_h img_w width height)
      (lrp_target_h img_h img_w width height) with
  | none => none
  | some (rh, rw) =>
    cv2_copyMakeBorder_dims rh rw
      (lrp_top img_h img_w width height) (lrp_bottom img_h img_w width height)
      (lrp_left img_h img_w width height) (lrp_right img_h img_w width height)

/-! ### Statement order of the mAP evaluation loop (lines 692-713) -/

/-- The statements of one iteration of the `for i in range(0, num_test_images)`
loop of `eval_faster_rcnn_mAP`, in source order. -/
inductive EvalStep where
  | nextMinibatch
  | extractGtBoxes
  | evalNetwork
  | computeLabels
  | computeScores
  | regressProposals
  | breakpoint
  | accumulateDetections (j : Nat)
  deriving Repr, DecidableEq

/-- One iteration of the per-image loop (lines 693-713): the minibatch
read, ground-truth extraction, network evaluation, label/score extraction
and box regression, then the `import pdb; pdb.set_trace()` of line 709,
then the `for j in range(1, num_classes)` accumulation of lines 710-713.
No statement of the body is under a conditional. -/
def mAP_loop_body (num_classes : Nat) : List EvalStep :=
  [.nextMinibatch, .extractGtBoxes, .evalNetwork, .computeLabels, .computeScores,
   .regressProposals, .breakpoint]
  ++ (List.range' 1 (num_classes - 1)).map .accumulateDetections

/-- The statement trace of the whole evaluation loop of
`eval_faster_rcnn_mAP`: iteration `i` contributes every statement of the
body, tagged with `i`. -/
def eval_mAP_trace (num_test_images num_classes : Nat) : List (Nat × EvalStep) :=
  (List.range num_test_images).flatMap fun i =>
    (mAP_loop_body num_classes).map fun s => (i, s)

/-! ### Theorems -/

/-- C4: for every configuration whose dataset name is neither Grocery nor
Pascal, or whose base model name is neither AlexNet nor VGG16, module setup
fails with the error message naming the unknown identifier (so no training
or evaluation step can run, there being no configuration), and for the
known identifiers module setup succeeds. -/
theorem C4_unknown_config_is_fatal (dataset base_model : String) :
    (((dataset ≠ "Grocery" ∧ dataset ≠ "Pascal") ∨
        (base_model ≠ "AlexNet" ∧ base_model ≠ "VGG16")) →
      ∃ msg, module_setup dataset base_model = .error msg ∧
        (msg = "unknown data set: " ++ dataset ∨
         msg = "unknown base model: " ++ base_model)) ∧
    ((dataset = "Grocery" ∨ dataset = "Pascal") →
      (base_model = "AlexNet" ∨ base_model = "VGG16") →
      ∃ cfg, module_setup dataset base_model = .ok cfg) := by
  constructor
  · intro h
    by_cases hg : dataset = "Grocery" <;> by_cases hp : dataset = "Pascal" <;>
      by_cases ha : base_model = "AlexNet" <;> by_cases hv : base_model = "VGG16" <;>
      simp_all [module_setup, dataset_setup, base_model_setup, Bind.bind, Except.bind]
  · rintro (hg | hp) (ha | hv) <;>
      simp_all [module_setup, dataset_setup, base_model_setup, Bind.bind, Except.bind,
        pure, Except.pure]

/-- Witness for C4: a bad dataset name and a bad base-model name are both
rejected with the message naming them, while the known pair Grocery/AlexNet
is accepted. -/
theorem C4_unknown_config_is_fatal_witness :
    (∃ msg, module_setup "Cifar" "AlexNet" = .error msg ∧
      (msg = "unknown data set: " ++ "Cifar" ∨
       msg = "unknown base model: " ++ "AlexNet")) ∧
    (∃ msg, module_setup "Grocery" "ResNet" = .error msg ∧
      (msg = "unknown data set: " ++ "Grocery" ∨
       msg = "unknown base model: " ++ "ResNet")) ∧
    (∃ cfg, module_setup "Grocery" "AlexNet" = .ok cfg) :=
  ⟨(C4_unknown_config_is_fatal "Cifar" "AlexNet").1 (.inl (by decide)),
   (C4_unknown_config_is_fatal "Grocery" "ResNet").1 (.inr (by decide)),
   (C4_unknown_config_is_fatal "Grocery" "AlexNet").2 (.inl rfl) (.inl rfl)⟩

/-- C5: when either map file is missing, create_mb_source fails with the
RuntimeError message that names both files (hence the missing ones) and
constructs no reader; when both exist it builds the composite reader. -/
theorem C5_missing_map_file_is_fatal (img_map_exists roi_map_exists : Bool)
    (img_map_file roi_map_file : String) (n_rois : Nat) (randomize : Bool) :
    ((img_map_exists = false ∨ roi_map_exists = false) →
      create_mb_source img_map_exists roi_map_exists img_map_file roi_map_file
          n_rois randomize =
        .error ("File \x27" ++ img_map_file ++ "\x27 or \x27" ++ roi_map_file ++
          "\x27 does not exist. Please run install_fastrcnn.py from Examples/Image/Detection/FastRCNN to fetch them")) ∧
    (img_map_exists = true → roi_map_exists = true →
      ∃ src, create_mb_source img_map_exists roi_map_exists img_map_file roi_map_file
          n_rois randomize = .ok src ∧ src.rois_dim = 5 * n_rois) := by
  constructor
  · rintro (h | h) <;> subst h <;> simp [create_mb_source]
  · intro h₁ h₂
    subst h₁; subst h₂
    exact ⟨_, rfl, rfl⟩

/-- Witness for C5: with the roi map file missing the reader construction
fails with the message naming both files; with both present it succeeds. -/
theorem C5_missing_map_file_is_fatal_witness :
    ((false = false ∨ true = false) →
      create_mb_source false true "train.imgMap.txt" "train.GTRois.txt" 50 true =
        .error ("File \x27" ++ "train.imgMap.txt" ++ "\x27 or \x27" ++ "train.GTRois.txt" ++
          "\x27 does not exist. Please run install_fastrcnn.py from Examples/Image/Detection/FastRCNN to fetch them")) ∧
    (∃ src, create_mb_source true true "train.imgMap.txt" "train.GTRois.txt" 50 true =
      .ok src ∧ src.rois_dim = 5 * 50) :=
  ⟨(C5_missing_map_file_is_fatal false true "train.imgMap.txt" "train.GTRois.txt" 50 true).1,
   (C5_missing_map_file_is_fatal true true "train.imgMap.txt" "train.GTRois.txt" 50 true).2
     rfl rfl⟩

/-- C6: the RPN classification convolution outputs 2 times 9 = 18 channels,
split into the background half over channels 0 to 8 and the foreground half
over channels 9 to 17; the RPN regression convolution outputs 4 times 9 =
36 channels; and the detection-head regression layer outputs 4 times
num_classes values per ROI. -/
theorem C6_rpn_and_head_shapes :
    rpn_cls_score_num_channels = 2 * 9 ∧
    rpn_num_anchors = 9 ∧
    bg_scores_slice = ⟨0, 9⟩ ∧
    fg_scores_slice = ⟨9, 18⟩ ∧
    rpn_bbox_pred_num_channels = 4 * 9 ∧
    ∀ num_classes : Nat, bbox_regr_dim num_classes = 4 * num_classes :=
  ⟨rfl, rfl, rfl, rfl, rfl, fun n => Nat.mul_comm n 4⟩

/-- C7: a row of the reshaped ground-truth table survives the evaluation
filter exactly when its class label (the fifth component) is strictly
positive, and the filter only drops rows (the survivors stay in order). -/
theorem C7_gt_rows_filtered_by_positive_label (gt_row : List ℚ) (r : GtRow) :
    (r ∈ eval_gt_boxes gt_row ↔ r ∈ reshape_gt_rows gt_row ∧ 0 < r.label) ∧
    (eval_gt_boxes gt_row).Sublist (reshape_gt_rows gt_row) := by
  constructor
  · simp [eval_gt_boxes, filter_gt_rows, List.mem_filter]
  · exact List.filter_sublist _

/-- C10: when any requested from-node or to-node name is absent from the
model, clone_model records the printed error line but still builds and
returns the cloned network from the looked-up nodes; it has no failure
path. -/
theorem C10_clone_model_warns_and_proceeds (find_by_name : String → Option GraphNode)
    (from_node_names to_node_names : List String) :
    ((∃ nm ∈ from_node_names, find_by_name nm = none) →
      "Error: could not find all specified \x27from_nodes\x27 in clone." ∈
        (clone_model find_by_name from_node_names to_node_names).1) ∧
    ((∃ nm ∈ to_node_names, find_by_name nm = none) →
      "Error: could not find all specified \x27to_nodes\x27 in clone." ∈
        (clone_model find_by_name from_node_names to_node_names).1) ∧
    (clone_model find_by_name from_node_names to_node_names).2 =
      ⟨from_node_names.map find_by_name, to_node_names.map find_by_name⟩ := by
  refine ⟨?_, ?_, rfl⟩
  · rintro ⟨nm, hmem, hnone⟩
    have h : none ∈ from_node_names.map find_by_name :=
      List.mem_map.mpr ⟨nm, hmem, hnone⟩
    simp [clone_model, h]
  · rintro ⟨nm, hmem, hnone⟩
    have h : none ∈ to_node_names.map find_by_name :=
      List.mem_map.mpr ⟨nm, hmem, hnone⟩
    by_cases h' : none ∈ from_node_names.map find_by_name <;> simp [clone_model, h, h']

/-- Witness for C10: with an empty model (no node resolves), both error
lines are printed and the clone is still produced. -/
theorem C10_clone_model_warns_and_proceeds_witness :
    ("Error: could not find all specified \x27from_nodes\x27 in clone." ∈
      (clone_model (fun _ => none) ["data"] ["conv5_3"]).1) ∧
    ("Error: could not find all specified \x27to_nodes\x27 in clone." ∈
      (clone_model (fun _ => none) ["data"] ["conv5_3"]).1) ∧
    (clone_model (fun _ => none) ["data"] ["conv5_3"]).2 =
      ⟨["data"].map (fun _ => none), ["conv5_3"].map (fun _ => none)⟩ :=
  ⟨(C10_clone_model_warns_and_proceeds (fun _ => none) ["data"] ["conv5_3"]).1
     ⟨"data", by decide, rfl⟩,
   (C10_clone_model_warns_and_proceeds (fun _ => none) ["data"] ["conv5_3"]).2.1
     ⟨"conv5_3", by decide, rfl⟩,
   (C10_clone_model_warns_and_proceeds (fun _ => none) ["data"] ["conv5_3"]).2.2⟩

/-- When every label in the remaining iteration list is nonpositive, the
regression loop never fires a step and returns the proposal array as is. -/
theorem regress_loop_skip (rexp : ℚ → ℚ) (factors : List (List ℚ)) :
    ∀ (ls : List ℤ) (k : Nat) (props : List Box), (∀ l ∈ ls, l ≤ 0) →
      regress_loop rexp factors (List.enumFrom k ls) props = some props := by
  intro ls
  induction ls with
  | nil => intro k props _; rfl
  | cons l ls ih =>
    intro k props h
    have hl : ¬ (0 : ℤ) < l := not_lt.mpr (h l (List.mem_cons_self l ls))
    show regress_loop rexp factors ((k, l) :: List.enumFrom (k + 1) ls) props = some props
    simp only [regress_loop, regress_step, if_neg hl]
    exact ih (k + 1) props fun x hx => h x (List.mem_cons_of_mem l hx)

/-- Frame property of the regression loop: when it succeeds, every row
whose index carries only nonpositive labels in the iteration list keeps its
input value. -/
theorem regress_loop_frame (rexp : ℚ → ℚ) (factors : List (List ℚ)) :
    ∀ (pairs : List (Nat × ℤ)) (props R : List Box),
      regress_loop rexp factors pairs props = some R →
      ∀ j, (∀ l, (j, l) ∈ pairs → l ≤ 0) → R[j]? = props[j]? := by
  intro pairs
  induction pairs with
  | nil =>
    intro props R hR j _
    cases hR
    rfl
  | cons p rest ih =>
    intro props R hR j hj
    obtain ⟨i, l⟩ := p
    by_cases hl : (0 : ℤ) < l
    · have hji : j ≠ i := by
        intro hji
        subst hji
        exact absurd hl (not_lt.mpr (hj l (List.mem_cons_self _ _)))
      simp only [regress_loop, regress_step, if_pos hl] at hR
      rcases hb : props[i]? with _ | b <;> rw [hb] at hR
      · cases hR
      rcases hd : delta_slice ((factors[i]?).getD []) l.toNat with _ | d <;> rw [hd] at hR
      · cases hR
      have h' := ih _ _ hR j fun l' hl' => hj l' (List.mem_cons_of_mem _ hl')
      rw [h', List.getElem?_set, if_neg (fun h => hji h.symm)]
    · simp only [regress_loop, regress_step, if_neg hl] at hR
      exact ih _ _ hR j fun l' hl' => hj l' (List.mem_cons_of_mem _ hl')

/-- C8: when every label is nonpositive (zero foreground detections),
regress_rois raises nothing and returns the proposal array with every row
unchanged. -/
theorem C8_all_background_leaves_rois_unchanged (rexp : ℚ → ℚ) (roi_proposals : List Box)
    (roi_regression_factors : List (List ℚ)) (labels : List ℤ)
    (h : ∀ l ∈ labels, l ≤ 0) :
    regress_rois rexp roi_proposals roi_regression_factors labels = some roi_proposals :=
  regress_loop_skip rexp roi_regression_factors labels 0 roi_proposals h

/-- Witness for C8: labels 0 and -1 on a two-proposal input leave both
rows untouched. -/
theorem C8_all_background_leaves_rois_unchanged_witness :
    (∀ l ∈ [(0 : ℤ), -1], l ≤ 0) ∧
    regress_rois (fun q => q) [⟨0, 0, 10, 10⟩, ⟨1, 2, 3, 4⟩] [[1, 2], []] [0, -1] =
      some [⟨0, 0, 10, 10⟩, ⟨1, 2, 3, 4⟩] :=
  ⟨by decide,
   C8_all_background_leaves_rois_unchanged (fun q => q) [⟨0, 0, 10, 10⟩, ⟨1, 2, 3, 4⟩]
     [[1, 2], []] [0, -1] (by decide)⟩

/-- Counterexample for C2: a single proposal with argmax class 1 and delta
(1, 0, 0, 0) — with an exponential satisfying exp 0 = 1 — leaves the
caller-visible roi_proposals array holding the regressed row (10, 0, 20, 10)
instead of the input row (0, 0, 10, 10): the input array is modified in
place, so regress_rois is not pure in its first argument. -/
theorem C2_counterexample_proposals_mutated :
    regress_rois_final_proposals (fun _ => 1) [⟨0, 0, 10, 10⟩]
      [[0, 0, 0, 0, 1, 0, 0, 0]] [1] ≠ some [⟨0, 0, 10, 10⟩] := by
  have h : regress_rois_final_proposals (fun _ => 1) [⟨0, 0, 10, 10⟩]
      [[0, 0, 0, 0, 1, 0, 0, 0]] [1] = some [⟨10, 0, 20, 10⟩] := by
    simp only [regress_rois_final_proposals, regress_rois, List.enumFrom, regress_loop,
      regress_step, delta_slice, bbox_transform_inv]
    norm_num
  rw [h]
  simp only [ne_eq, Option.some.injEq, List.cons.injEq, Box.mk.injEq]
  norm_num

/-- C2 amended: regress_rois is deterministic (equal inputs give equal
results) and reads roi_regression_factors and labels without modifying
them, but it writes the regressed boxes back into roi_proposals row by row
and returns that same array: the final contents of the roi_proposals
argument are the returned rows, and only rows with a positive label can
change (nonpositive-label rows keep their input value). -/
theorem C2_amended_regress_rois_deterministic_but_mutating (rexp : ℚ → ℚ)
    (roi_proposals : List Box) (roi_regression_factors : List (List ℚ)) (labels : List ℤ) :
    (∀ props' factors' labels', roi_proposals = props' →
      roi_regression_factors = factors' → labels = labels' →
      regress_rois rexp roi_proposals roi_regression_factors labels =
        regress_rois rexp props' factors' labels') ∧
    regress_rois_final_proposals rexp roi_proposals roi_regression_factors labels =
      regress_rois rexp roi_proposals roi_regression_factors labels ∧
    (∀ R, regress_rois rexp roi_proposals roi_regression_factors labels = some R →
      ∀ (j : Nat) (l : ℤ), labels[j]? = some l → l ≤ 0 → R[j]? = roi_proposals[j]?) := by
  refine ⟨?_, rfl, ?_⟩
  · intro props' factors' labels' h₁ h₂ h₃
    subst h₁; subst h₂; subst h₃
    rfl
  · intro R hR j l hjl hl
    refine regress_loop_frame rexp roi_regression_factors _ _ _ hR j ?_
    intro l' hmem
    obtain ⟨-, hlt, hval⟩ := List.mem_enumFrom hmem
    have hj : j < labels.length := by simpa using hlt
    rw [List.getElem?_eq_getElem hj] at hjl
    have heq : labels[j] = l := by injection hjl
    rw [hval]
    simpa [heq] using hl

/-- Witness for C2 amended: on a one-proposal input with background label 0
the call is deterministic, the final array contents equal the returned
value, and row 0 is unchanged. -/
theorem C2_amended_regress_rois_deterministic_but_mutating_witness :
    (regress_rois (fun q => q) [⟨0, 0, 1, 1⟩] [[]] [0] =
      regress_rois (fun q => q) [⟨0, 0, 1, 1⟩] [[]] [0]) ∧
    (regress_rois_final_proposals (fun q => q) [⟨0, 0, 1, 1⟩] [[]] [0] =
      regress_rois (fun q => q) [⟨0, 0, 1, 1⟩] [[]] [0]) ∧
    (([⟨0, 0, 1, 1⟩] : List Box)[0]? = ([⟨0, 0, 1, 1⟩] : List Box)[0]?) :=
  ⟨(C2_amended_regress_rois_deterministic_but_mutating (fun q => q) [⟨0, 0, 1, 1⟩] [[]] [0]).1
     _ _ _ rfl rfl rfl,
   (C2_amended_regress_rois_deterministic_but_mutating (fun q => q) [⟨0, 0, 1, 1⟩] [[]] [0]).2.1,
   (C2_amended_regress_rois_deterministic_but_mutating (fun q => q) [⟨0, 0, 1, 1⟩] [[]] [0]).2.2
     [⟨0, 0, 1, 1⟩] (by decide) 0 0 (by decide) (by decide)⟩

/-- np_argmax stays within bounds on a nonempty row. -/
theorem np_argmax_lt_length (xs : List ℚ) (h : xs ≠ []) : np_argmax xs < xs.length := by
  induction xs with
  | nil => exact absurd rfl h
  | cons x xs ih =>
    cases xs with
    | nil => simp [np_argmax]
    | cons y ys =>
      have hlt := ih (by simp)
      simp only [np_argmax]
      split
      · simp only [List.length_cons] at *
        omega
      · simp

/-- np_argmax picks a maximal entry: every entry of the row is at most the
entry at the argmax index. -/
theorem np_argmax_dominates (xs : List ℚ) :
    ∀ j : Nat, j < xs.length → xs.getD j 0 ≤ xs.getD (np_argmax xs) 0 := by
  induction xs with
  | nil => intro j hj; simp at hj
  | cons x xs ih =>
    cases xs with
    | nil =>
      intro j hj
      have hj0 : j = 0 := by simpa using Nat.lt_one_iff.mp (by simpa using hj)
      subst hj0
      simp [np_argmax]
    | cons y ys =>
      intro j hj
      simp only [np_argmax]
      split
      case isTrue h1 =>
        cases j with
        | zero => simpa using le_of_lt h1
        | succ n =>
          have hn : n < (y :: ys).length := by simpa using hj
          simpa using ih n hn
      case isFalse h1 =>
        have h3 : (y :: ys).getD (np_argmax (y :: ys)) 0 ≤ x := not_lt.mp h1
        cases j with
        | zero => simp
        | succ n =>
          have hn : n < (y :: ys).length := by simpa using hj
          simpa using (ih n hn).trans h3

/-- When the per-class regression row is long enough, the 4-column slice
for a class exists and consists of the four consecutive entries starting
at 4 times the class index. -/
theorem delta_slice_eq_of_length (row : List ℚ) (label : Nat)
    (h : 4 * label + 4 ≤ row.length) :
    delta_slice row label =
      some ⟨row.getD (4 * label) 0, row.getD (4 * label + 1) 0,
            row.getD (4 * label + 2) 0, row.getD (4 * label + 3) 0⟩ := by
  have e : ∀ i : Nat, i < row.length → row[i]? = some (row.getD i 0) := by
    intro i hi
    rw [List.getD_eq_getElem?_getD, List.getElem?_eq_getElem hi]
    rfl
  unfold delta_slice
  rw [e _ (by omega), e _ (by omega), e _ (by omega), e _ (by omega)]

/-- Indexed membership in an enumerated list. -/
theorem enumFrom_mem_of_getElem {α : Type} (ls : List α) :
    ∀ (k i : Nat) (l : α), ls[i]? = some l → (k + i, l) ∈ List.enumFrom k ls := by
  induction ls with
  | nil => intro k i l h; simp at h
  | cons a as ih =>
    intro k i l h
    cases i with
    | zero =>
      have ha : l = a := by simpa using h.symm
      subst ha
      simp [List.enumFrom]
    | succ n =>
      have h' : as[n]? = some l := by simpa using h
      have := ih (k + 1) n l h'
      have harith : k + (n + 1) = k + 1 + n := by omega
      rw [harith]
      exact List.mem_cons_of_mem _ this

/-- Characterization of the regression loop from start index k: when every
positive-label iteration finds its proposal row and delta slice, the loop
succeeds, keeps the array length, leaves rows below k untouched, and
rewrites each positive-label row with the decoded box. -/
theorem regress_loop_spec (rexp : ℚ → ℚ) (factors : List (List ℚ)) :
    ∀ (ls : List ℤ) (k : Nat) (props : List Box),
      (∀ (i : Nat) (l : ℤ), (i, l) ∈ List.enumFrom k ls → 0 < l →
        (∃ b, props[i]? = some b) ∧
        (∃ d, delta_slice ((factors[i]?).getD []) l.toNat = some d)) →
      ∃ R, regress_loop rexp factors (List.enumFrom k ls) props = some R ∧
        R.length = props.length ∧
        (∀ j : Nat, j < k → R[j]? = props[j]?) ∧
        (∀ (i : Nat) (l : ℤ), (i, l) ∈ List.enumFrom k ls → 0 < l →
          ∀ b d, props[i]? = some b →
            delta_slice ((factors[i]?).getD []) l.toNat = some d →
            R[i]? = some (bbox_transform_inv rexp b d)) := by
  intro ls
  induction ls with
  | nil =>
    intro k props _
    exact ⟨props, rfl, rfl, fun j _ => rfl, by simp [List.enumFrom]⟩
  | cons l ls ih =>
    intro k props h
    by_cases hl : (0 : ℤ) < l
    · obtain ⟨⟨b, hb⟩, ⟨d, hd⟩⟩ := h k l (by simp [List.enumFrom]) hl
      have hk : k < props.length := by
        by_contra hk
        rw [List.getElem?_eq_none (Nat.le_of_not_lt hk)] at hb
        exact Option.noConfusion hb
      have hstep : regress_loop rexp factors (List.enumFrom k (l :: ls)) props =
          regress_loop rexp factors (List.enumFrom (k + 1) ls)
            (props.set k (bbox_transform_inv rexp b d)) := by
        simp only [List.enumFrom, regress_loop, regress_step, if_pos hl, hb, hd]
      have hset : ∀ (i : Nat), i ≠ k →
          (props.set k (bbox_transform_inv rexp b d))[i]? = props[i]? := by
        intro i hi
        rw [List.getElem?_set, if_neg (fun hh => hi hh.symm)]
      have htail : ∀ (i : Nat) (l' : ℤ), (i, l') ∈ List.enumFrom (k + 1) ls → k + 1 ≤ i := by
        intro i l' hmem
        exact (List.mem_enumFrom hmem).1
      obtain ⟨R, hR, hlen, hlow, hcov⟩ := ih (k + 1) (props.set k (bbox_transform_inv rexp b d))
        (by
          intro i l' hmem hl'
          have hik : i ≠ k := by
            have := htail i l' hmem
            omega
          rw [hset i hik]
          exact h i l' (List.mem_cons_of_mem _ hmem) hl')
      refine ⟨R, by rw [hstep]; exact hR, by rw [hlen, List.length_set], ?_, ?_⟩
      · intro j hj
        rw [hlow j (by omega), hset j (by omega)]
      · intro i l' hmem hl' b' d' hb' hd'
        rcases List.mem_cons.mp hmem with heq | hmem'
        · have hik : i = k := by
            have := congrArg Prod.fst heq
            simpa using this
          have hlk : l' = l := by
            have := congrArg Prod.snd heq
            simpa using this
          subst hik
          have hbb : b' = b := by
            rw [hb] at hb'
            exact (Option.some.inj hb').symm
          have hdd : d' = d := by
            rw [hlk, hd] at hd'
            exact (Option.some.inj hd').symm
          subst hbb; subst hdd
          rw [hlow i (by omega), List.getElem?_set, if_pos rfl, if_pos hk]
        · have hik : i ≠ k := by
            have := htail i l' hmem'
            omega
          exact hcov i l' hmem' hl' b' d' (by rw [hset i hik]; exact hb') hd'
    · have hstep : regress_loop rexp factors (List.enumFrom k (l :: ls)) props =
          regress_loop rexp factors (List.enumFrom (k + 1) ls) props := by
        simp only [List.enumFrom, regress_loop, regress_step, if_neg hl]
      obtain ⟨R, hR, hlen, hlow, hcov⟩ := ih (k + 1) props
        (fun i l' hmem hl' => h i l' (List.mem_cons_of_mem _ hmem) hl')
      refine ⟨R, by rw [hstep]; exact hR, hlen, fun j hj => hlow j (by omega), ?_⟩
      intro i l' hmem hl' b' d' hb' hd'
      rcases List.mem_cons.mp hmem with heq | hmem'
      · have hlk : l' = l := by
          have := congrArg Prod.snd heq
          simpa using this
        rw [hlk] at hl'
        exact absurd hl' hl
      · exact hcov i l' hmem' hl' b' d' hb' hd'

/-- C1: on the mAP evaluation path, for every proposal box the chosen class
is the argmax of that box-row of the per-class scores (its score dominates
every class score of the row), and the regression step replaces the box by
bbox_transform_inv applied to the 4-column delta slice starting at 4 times
the chosen label of that box-row of the per-class regression vector when
the label is positive, leaving the box unchanged when the label is 0. -/
theorem C1_regress_rois_uses_argmax_class_slice (rexp : ℚ → ℚ)
    (out_rpn_rois : List Box) (out_bbox_regr : List (List ℚ))
    (out_cls_pred : List (List ℚ)) (nc : Nat)
    (hnc : 0 < nc)
    (hcls_len : out_cls_pred.length = out_rpn_rois.length)
    (hregr_len : out_bbox_regr.length = out_rpn_rois.length)
    (hcls : ∀ row ∈ out_cls_pred, row.length = nc)
    (hregr : ∀ row ∈ out_bbox_regr, row.length = 4 * nc) :
    ∃ R, mAP_regressed_rois rexp out_rpn_rois out_bbox_regr out_cls_pred = some R ∧
      R.length = out_rpn_rois.length ∧
      ∀ i : Nat, i < out_rpn_rois.length →
        ∃ srow b, out_cls_pred[i]? = some srow ∧ out_rpn_rois[i]? = some b ∧
          (∀ j : Nat, j < srow.length → srow.getD j 0 ≤ srow.getD (np_argmax srow) 0) ∧
          (0 < np_argmax srow →
            ∃ d, delta_slice ((out_bbox_regr[i]?).getD []) (np_argmax srow) = some d ∧
              R[i]? = some (bbox_transform_inv rexp b d)) ∧
          (np_argmax srow = 0 → R[i]? = some b) := by
  classical
  set labels : List ℤ := out_cls_pred.map (fun row => ((np_argmax row : Nat) : ℤ)) with hlabels
  have hll : labels.length = out_cls_pred.length := List.length_map _ _
  have hlab_get : ∀ i : Nat, i < out_cls_pred.length →
      ∃ srow, out_cls_pred[i]? = some srow ∧
        labels[i]? = some ((np_argmax srow : Nat) : ℤ) := by
    intro i hi
    refine ⟨out_cls_pred[i], List.getElem?_eq_getElem hi, ?_⟩
    rw [hlabels, List.getElem?_map, List.getElem?_eq_getElem hi]
    rfl
  have hdelta : ∀ i : Nat, i < out_rpn_rois.length → ∀ srow, out_cls_pred[i]? = some srow →
      0 < np_argmax srow →
      delta_slice ((out_bbox_regr[i]?).getD []) (np_argmax srow) =
        some ⟨(out_bbox_regr[i]?).getD [] |>.getD (4 * np_argmax srow) 0,
              (out_bbox_regr[i]?).getD [] |>.getD (4 * np_argmax srow + 1) 0,
              (out_bbox_regr[i]?).getD [] |>.getD (4 * np_argmax srow + 2) 0,
              (out_bbox_regr[i]?).getD [] |>.getD (4 * np_argmax srow + 3) 0⟩ := by
    intro i hi srow hsrow _
    have hi' : i < out_cls_pred.length := by omega
    have hsrow_mem : srow ∈ out_cls_pred := by
      rw [List.getElem?_eq_getElem hi'] at hsrow
      have := Option.some.inj hsrow
      rw [← this]
      exact List.getElem_mem _
    have hsrow_len : srow.length = nc := hcls srow hsrow_mem
    have hsrow_ne : srow ≠ [] := by
      intro hh
      rw [hh] at hsrow_len
      simp at hsrow_len
      omega
    have hargmax : np_argmax srow < nc := by
      rw [← hsrow_len]
      exact np_argmax_lt_length srow hsrow_ne
    have hi'' : i < out_bbox_regr.length := by omega
    have hfrow : (out_bbox_regr[i]?).getD [] = out_bbox_regr[i] := by
      rw [List.getElem?_eq_getElem hi'']
      rfl
    have hfrow_len : out_bbox_regr[i].length = 4 * nc :=
      hregr _ (List.getElem_mem _)
    rw [hfrow]
    exact delta_slice_eq_of_length _ _ (by omega)
  have hhyp : ∀ (i : Nat) (l : ℤ), (i, l) ∈ List.enumFrom 0 labels → 0 < l →
      (∃ b, out_rpn_rois[i]? = some b) ∧
      (∃ d, delta_slice ((out_bbox_regr[i]?).getD []) l.toNat = some d) := by
    intro i l hmem hl
    obtain ⟨-, hlt, hval⟩ := List.mem_enumFrom hmem
    have hi : i < out_rpn_rois.length := by
      rw [← hcls_len, ← hll]
      simpa using hlt
    obtain ⟨srow, hsrow, hlab⟩ := hlab_get i (by omega)
    have hlval : l = ((np_argmax srow : Nat) : ℤ) := by
      have hi' : i < labels.length := by simpa using hlt
      rw [List.getElem?_eq_getElem hi'] at hlab
      rw [hval]
      simpa using Option.some.inj hlab
    have hpos : 0 < np_argmax srow := by
      rw [hlval] at hl
      exact_mod_cast hl
    refine ⟨⟨out_rpn_rois[i], List.getElem?_eq_getElem hi⟩, ?_⟩
    rw [hlval]
    rw [Int.toNat_natCast]
    exact ⟨_, hdelta i hi srow hsrow hpos⟩
  obtain ⟨R, hR, hlen, -, hcov⟩ :=
    regress_loop_spec rexp out_bbox_regr labels 0 out_rpn_rois hhyp
  have hR' : mAP_regressed_rois rexp out_rpn_rois out_bbox_regr out_cls_pred = some R := hR
  refine ⟨R, hR', by rw [hlen], ?_⟩
  intro i hi
  obtain ⟨srow, hsrow, hlab⟩ := hlab_get i (by omega)
  refine ⟨srow, out_rpn_rois[i], hsrow, List.getElem?_eq_getElem hi, ?_, ?_, ?_⟩
  · exact np_argmax_dominates srow
  · intro hpos
    have hmem : (i, ((np_argmax srow : Nat) : ℤ)) ∈ List.enumFrom 0 labels := by
      have := enumFrom_mem_of_getElem labels 0 i _ hlab
      simpa using this
    obtain ⟨d, hd⟩ := (hhyp i _ hmem (by exact_mod_cast hpos)).2
    rw [Int.toNat_natCast] at hd
    refine ⟨d, hd, ?_⟩
    have := hcov i _ hmem (by exact_mod_cast hpos) out_rpn_rois[i] d
      (List.getElem?_eq_getElem hi) (by rw [Int.toNat_natCast]; exact hd)
    exact this
  · intro hzero
    have hframe := regress_loop_frame rexp out_bbox_regr (List.enumFrom 0 labels)
      out_rpn_rois R hR i ?_
    · rw [hframe]
      exact List.getElem?_eq_getElem hi
    · intro l' hmem'
      obtain ⟨-, hlt', hval'⟩ := List.mem_enumFrom hmem'
      have hi' : i < labels.length := by simpa using hlt'
      rw [List.getElem?_eq_getElem hi'] at hlab
      have : labels[i] = ((np_argmax srow : Nat) : ℤ) := Option.some.inj hlab
      rw [hval']
      simp only [Nat.sub_zero]
      rw [this, hzero]
      simp

/-- Witness for C1: two proposals with per-class scores picking class 1 for
the first box and class 0 for the second, on which the evaluation path
regression succeeds and satisfies the argmax/slice characterization. -/
theorem C1_regress_rois_uses_argmax_class_slice_witness :
    ((0 : Nat) < 2 ∧
      ([[0, 1], [5, 3]] : List (List ℚ)).length =
        ([⟨0, 0, 10, 10⟩, ⟨0, 0, 2, 2⟩] : List Box).length ∧
      ([[0, 0, 0, 0, 1, 0, 0, 0], [1, 1, 1, 1, 2, 2, 2, 2]] : List (List ℚ)).length =
        ([⟨0, 0, 10, 10⟩, ⟨0, 0, 2, 2⟩] : List Box).length ∧
      (∀ row ∈ ([[0, 1], [5, 3]] : List (List ℚ)), row.length = 2) ∧
      (∀ row ∈ ([[0, 0, 0, 0, 1, 0, 0, 0], [1, 1, 1, 1, 2, 2, 2, 2]] : List (List ℚ)),
        row.length = 4 * 2)) ∧
    (∃ R, mAP_regressed_rois (fun _ => 1) [⟨0, 0, 10, 10⟩, ⟨0, 0, 2, 2⟩]
        [[0, 0, 0, 0, 1, 0, 0, 0], [1, 1, 1, 1, 2, 2, 2, 2]] [[0, 1], [5, 3]] = some R ∧
      R.length = ([⟨0, 0, 10, 10⟩, ⟨0, 0, 2, 2⟩] : List Box).length ∧
      ∀ i : Nat, i < ([⟨0, 0, 10, 10⟩, ⟨0, 0, 2, 2⟩] : List Box).length →
        ∃ srow b, ([[0, 1], [5, 3]] : List (List ℚ))[i]? = some srow ∧
          ([⟨0, 0, 10, 10⟩, ⟨0, 0, 2, 2⟩] : List Box)[i]? = some b ∧
          (∀ j : Nat, j < srow.length → srow.getD j 0 ≤ srow.getD (np_argmax srow) 0) ∧
          (0 < np_argmax srow →
            ∃ d, delta_slice
                ((([[0, 0, 0, 0, 1, 0, 0, 0], [1, 1, 1, 1, 2, 2, 2, 2]] :
                    List (List ℚ))[i]?).getD []) (np_argmax srow) = some d ∧
              R[i]? = some (bbox_transform_inv (fun _ => 1) b d)) ∧
          (np_argmax srow = 0 → R[i]? = some b)) :=
  ⟨⟨by decide, by decide, by decide, by decide, by decide⟩,
   C1_regress_rois_uses_argmax_class_slice (fun _ => 1) [⟨0, 0, 10, 10⟩, ⟨0, 0, 2, 2⟩]
     [[0, 0, 0, 0, 1, 0, 0, 0], [1, 1, 1, 1, 2, 2, 2, 2]] [[0, 1], [5, 3]] 2
     (by decide) (by decide) (by decide) (by decide) (by decide)⟩

/-- Every trace entry is tagged with an iteration index below the image
count. -/
theorem eval_mAP_trace_fst_lt (n nc : Nat) :
    ∀ p ∈ eval_mAP_trace n nc, p.1 < n := by
  intro p hp
  obtain ⟨a, ha, hpa⟩ := List.mem_flatMap.mp hp
  obtain ⟨s, -, hs⟩ := List.mem_map.mp hpa
  rw [← hs]
  exact List.mem_range.mp ha

/-- The trace splits around any iteration i below the image count: a
prefix whose entries all belong to earlier iterations, the full body of
iteration i, and a remainder. -/
theorem eval_mAP_trace_decomp (n nc i : Nat) (hi : i < n) :
    ∃ A B, eval_mAP_trace n nc =
      A ++ ((mAP_loop_body nc).map (Prod.mk i) ++ B) ∧ ∀ p ∈ A, p.1 < i := by
  obtain ⟨k, hk⟩ : ∃ k, n = i + (k + 1) := ⟨n - i - 1, by omega⟩
  subst hk
  refine ⟨eval_mAP_trace i nc,
    ((List.range k).map (fun x => i + Nat.succ x)).flatMap
      (fun a => (mAP_loop_body nc).map (Prod.mk a)), ?_, eval_mAP_trace_fst_lt i nc⟩
  show eval_mAP_trace (i + (k + 1)) nc = _
  rw [eval_mAP_trace, List.range_add, List.flatMap_append, List.range_succ_eq_map]
  rw [List.map_cons, List.flatMap_cons]
  simp only [Nat.add_zero]
  rw [List.map_map]
  rfl

/-- C3: on every image iteration of the mAP-evaluation loop, the
interactive debugger breakpoint (pdb.set_trace of line 709) is executed —
it lies on the unconditional path of the per-image loop — and it is
executed before any per-class detection-table accumulation of that
iteration: no accumulation entry of iteration i precedes the breakpoint,
and every class accumulation of iteration i follows it. -/
theorem C3_breakpoint_on_every_iteration (n nc i : Nat) (hi : i < n) :
    ∃ pre post, eval_mAP_trace n nc = pre ++ (i, EvalStep.breakpoint) :: post ∧
      (∀ j : Nat, (i, EvalStep.accumulateDetections j) ∉ pre) ∧
      (∀ j : Nat, 1 ≤ j → j < nc → (i, EvalStep.accumulateDetections j) ∈ post) := by
  obtain ⟨A, B, hAB, hA⟩ := eval_mAP_trace_decomp n nc i hi
  refine ⟨A ++ [(i, .nextMinibatch), (i, .extractGtBoxes), (i, .evalNetwork),
      (i, .computeLabels), (i, .computeScores), (i, .regressProposals)],
    ((List.range' 1 (nc - 1)).map fun j => (i, EvalStep.accumulateDetections j)) ++ B,
    ?_, ?_, ?_⟩
  · rw [hAB]
    have hbody : (mAP_loop_body nc).map (Prod.mk i) =
        [(i, EvalStep.nextMinibatch), (i, .extractGtBoxes), (i, .evalNetwork),
         (i, .computeLabels), (i, .computeScores), (i, .regressProposals),
         (i, .breakpoint)] ++
        ((List.range' 1 (nc - 1)).map fun j => (i, EvalStep.accumulateDetections j)) := by
      rw [mAP_loop_body, List.map_append, List.map_map]
      rfl
    rw [hbody]
    simp [List.append_assoc]
  · intro j hj
    rcases List.mem_append.mp hj with h | h
    · exact absurd (hA _ h) (by simp)
    · simp at h
  · intro j h1 h2
    refine List.mem_append.mpr (.inl ?_)
    exact List.mem_map.mpr ⟨j, List.mem_range'_1.mpr ⟨h1, by omega⟩, rfl⟩

/-- Witness for C3: with two test images and three classes, iteration 1
hits the breakpoint before its accumulation steps. -/
theorem C3_breakpoint_on_every_iteration_witness :
    (1 : Nat) < 2 ∧
    (∃ pre post, eval_mAP_trace 2 3 = pre ++ (1, EvalStep.breakpoint) :: post ∧
      (∀ j : Nat, (1, EvalStep.accumulateDetections j) ∉ pre) ∧
      (∀ j : Nat, 1 ≤ j → j < 3 → (1, EvalStep.accumulateDetections j) ∈ post)) :=
  ⟨by decide, C3_breakpoint_on_every_iteration 2 3 1 (by decide)⟩

/-- Rounding an integer changes nothing. -/
theorem roundHalfEven_intCast (z : ℤ) : roundHalfEven (z : ℚ) = z := by
  unfold roundHalfEven
  rw [Int.floor_intCast]
  norm_num

/-- np.round never overshoots by more than one half. -/
theorem roundHalfEven_le (q : ℚ) : (roundHalfEven q : ℚ) ≤ q + 1 / 2 := by
  unfold roundHalfEven
  have hfl : (⌊q⌋ : ℚ) ≤ q := Int.floor_le q
  by_cases h1 : q - ⌊q⌋ < 1 / 2
  · rw [if_pos h1]
    linarith
  · rw [if_neg h1]
    by_cases h2 : 1 / 2 < q - ⌊q⌋
    · rw [if_pos h2]
      push_cast
      linarith
    · rw [if_neg h2]
      have heq : q - ⌊q⌋ = 1 / 2 := le_antisymm (not_lt.mp h2) (not_lt.mp h1)
      by_cases h3 : ⌊q⌋ % 2 = 0
      · rw [if_pos h3]
        linarith
      · rw [if_neg h3]
        push_cast
        linarith

/-- Rounding half of a nonnegative integer stays at most the integer. -/
theorem roundHalfEven_half_le (d : ℤ) (hd : 0 ≤ d) : roundHalfEven ((d : ℚ) / 2) ≤ d := by
  have h := roundHalfEven_le ((d : ℚ) / 2)
  have hdq : (0 : ℚ) ≤ (d : ℚ) := by exact_mod_cast hd
  have h3 : (roundHalfEven ((d : ℚ) / 2) : ℚ) < (d : ℚ) + 1 := by linarith
  have h4 : roundHalfEven ((d : ℚ) / 2) < d + 1 := by exact_mod_cast h3
  omega

/-- Counterexample for C9: a 100 x 50 source image (wider than tall) with
the non-square positive target width 200, height 50 computes target_h =
100 above the requested height, so the bottom border is -50 and
cv2.copyMakeBorder rejects the call: no (height, width) image is
returned. -/
theorem C9_counterexample_nonsquare_target :
    load_resize_and_pad_dims 50 100 200 50 = none := by
  have hsc : lrp_scale_w 50 100 = true := by decide
  have hth : lrp_target_h 50 100 200 50 = 100 := by
    rw [lrp_target_h, if_pos hsc]
    rw [show (((50 : Nat) : ℚ) * ((200 : Nat) : ℚ) / ((100 : Nat) : ℚ)) = ((100 : ℤ) : ℚ) by
      push_cast; norm_num]
    rw [roundHalfEven_intCast]
  have htw : lrp_target_w 50 100 200 50 = 200 := by
    rw [lrp_target_w, if_pos hsc]
    norm_num
  have htop : lrp_top 50 100 200 50 = 0 := by
    rw [lrp_top, hth]
    rw [show ((((50 : Nat)) : ℚ) - (((100 : ℤ)) : ℚ)) / 2 = (((-25 : ℤ)) : ℚ) by
      push_cast; norm_num]
    rw [roundHalfEven_intCast]
    decide
  have hbot : lrp_bottom 50 100 200 50 = -50 := by
    rw [lrp_bottom, htop, hth]
    norm_num
  rw [load_resize_and_pad_dims, htw, hth]
  rw [show cv2_resize_dims 200 100 = some (100, 200) by decide]
  rw [htop, hbot]
  norm_num [cv2_copyMakeBorder_dims]

/-- C9 amended: for every source image with positive dimensions and every
positive target (width, height) whose aspect-scaled resize dimensions are
positive and fit inside the target canvas (which always holds for the
square 1000 x 1000 canvas the script uses), load_resize_and_pad returns a
padded image of exactly (height, width) pixels; the resized content keeps
the scale determined by the longer source side and is centered: top +
bottom padding equals height - target_h, left + right padding equals
width - target_w, and top and left are nonnegative.  Without the fit
condition the border computation can go negative and the call fails
instead of returning an image. -/
theorem C9_amended_resize_pad_centered (img_h img_w width height : Nat)
    (_hih : 0 < img_h) (_hiw : 0 < img_w) (_hw : 0 < width) (_hh : 0 < height)
    (htw_pos : 0 < lrp_target_w img_h img_w width height)
    (hth_pos : 0 < lrp_target_h img_h img_w width height)
    (htw_le : lrp_target_w img_h img_w width height ≤ (width : ℤ))
    (hth_le : lrp_target_h img_h img_w width height ≤ (height : ℤ)) :
    load_resize_and_pad_dims img_h img_w width height = some ((height : ℤ), (width : ℤ)) ∧
    lrp_top img_h img_w width height + lrp_bottom img_h img_w width height =
      (height : ℤ) - lrp_target_h img_h img_w width height ∧
    lrp_left img_h img_w width height + lrp_right img_h img_w width height =
      (width : ℤ) - lrp_target_w img_h img_w width height ∧
    0 ≤ lrp_top img_h img_w width height ∧
    0 ≤ lrp_left img_h img_w width height ∧
    (if lrp_scale_w img_h img_w then
      lrp_target_w img_h img_w width height = (width : ℤ) ∧
      lrp_target_h img_h img_w width height =
        roundHalfEven ((img_h : ℚ) * (width : ℚ) / (img_w : ℚ))
    else
      lrp_target_h img_h img_w width height = (height : ℤ) ∧
      lrp_target_w img_h img_w width height =
        roundHalfEven ((img_w : ℚ) * (height : ℚ) / (img_h : ℚ))) := by
  have hdh : (0 : ℤ) ≤ (height : ℤ) - lrp_target_h img_h img_w width height := by omega
  have hdw : (0 : ℤ) ≤ (width : ℤ) - lrp_target_w img_h img_w width height := by omega
  have htop_eq : lrp_top img_h img_w width height =
      max 0 (roundHalfEven
        ((((height : ℤ) - lrp_target_h img_h img_w width height : ℤ) : ℚ) / 2)) := by
    rw [lrp_top]
    congr 2
    push_cast
    ring
  have hleft_eq : lrp_left img_h img_w width height =
      max 0 (roundHalfEven
        ((((width : ℤ) - lrp_target_w img_h img_w width height : ℤ) : ℚ) / 2)) := by
    rw [lrp_left]
    congr 2
    push_cast
    ring
  have htop_le : lrp_top img_h img_w width height ≤
      (height : ℤ) - lrp_target_h img_h img_w width height := by
    rw [htop_eq]
    exact max_le hdh (roundHalfEven_half_le _ hdh)
  have hleft_le : lrp_left img_h img_w width height ≤
      (width : ℤ) - lrp_target_w img_h img_w width height := by
    rw [hleft_eq]
    exact max_le hdw (roundHalfEven_half_le _ hdw)
  have htop_nonneg : 0 ≤ lrp_top img_h img_w width height := by
    rw [lrp_top]
    exact le_max_left _ _
  have hleft_nonneg : 0 ≤ lrp_left img_h img_w width height := by
    rw [lrp_left]
    exact le_max_left _ _
  have hbot_nonneg : 0 ≤ lrp_bottom img_h img_w width height := by
    rw [lrp_bottom]
    omega
  have hright_nonneg : 0 ≤ lrp_right img_h img_w width height := by
    rw [lrp_right]
    omega
  have hres : cv2_resize_dims (lrp_target_w img_h img_w width height)
      (lrp_target_h img_h img_w width height) =
      some (lrp_target_h img_h img_w width height,
        lrp_target_w img_h img_w width height) := by
    rw [cv2_resize_dims, if_pos ⟨htw_pos, hth_pos⟩]
  have hmain : load_resize_and_pad_dims img_h img_w width height =
      cv2_copyMakeBorder_dims (lrp_target_h img_h img_w width height)
        (lrp_target_w img_h img_w width height)
        (lrp_top img_h img_w width height) (lrp_bottom img_h img_w width height)
        (lrp_left img_h img_w width height) (lrp_right img_h img_w width height) := by
    rw [load_resize_and_pad_dims, hres]
  refine ⟨?_, by rw [lrp_bottom]; ring, by rw [lrp_right]; ring,
    htop_nonneg, hleft_nonneg, ?_⟩
  · rw [hmain, cv2_copyMakeBorder_dims,
      if_pos ⟨htop_nonneg, hbot_nonneg, hleft_nonneg, hright_nonneg⟩]
    simp only [Option.some.injEq, Prod.mk.injEq]
    constructor
    · rw [lrp_bottom]
      ring
    · rw [lrp_right]
      ring
  · by_cases hsw : lrp_scale_w img_h img_w <;>
      simp [hsw, lrp_target_w, lrp_target_h]

/-- Witness for C9 amended: an 80 x 40 source image resized into the
100 x 100 canvas lands as a 100 x 50 content block centered vertically. -/
theorem C9_amended_resize_pad_centered_witness :
    ((0 : Nat) < 40 ∧ (0 : Nat) < 80 ∧ (0 : Nat) < 100 ∧
      0 < lrp_target_w 40 80 100 100 ∧ 0 < lrp_target_h 40 80 100 100 ∧
      lrp_target_w 40 80 100 100 ≤ ((100 : Nat) : ℤ) ∧
      lrp_target_h 40 80 100 100 ≤ ((100 : Nat) : ℤ)) ∧
    (load_resize_and_pad_dims 40 80 100 100 = some (((100 : Nat) : ℤ), ((100 : Nat) : ℤ)) ∧
      lrp_top 40 80 100 100 + lrp_bottom 40 80 100 100 =
        ((100 : Nat) : ℤ) - lrp_target_h 40 80 100 100 ∧
      lrp_left 40 80 100 100 + lrp_right 40 80 100 100 =
        ((100 : Nat) : ℤ) - lrp_target_w 40 80 100 100 ∧
      0 ≤ lrp_top 40 80 100 100 ∧
      0 ≤ lrp_left 40 80 100 100 ∧
      (if lrp_scale_w 40 80 then
        lrp_target_w 40 80 100 100 = ((100 : Nat) : ℤ) ∧
        lrp_target_h 40 80 100 100 =
          roundHalfEven (((40 : Nat) : ℚ) * ((100 : Nat) : ℚ) / ((80 : Nat) : ℚ))
      else
        lrp_target_h 40 80 100 100 = ((100 : Nat) : ℤ) ∧
        lrp_target_w 40 80 100 100 =
          roundHalfEven (((80 : Nat) : ℚ) * ((100 : Nat) : ℚ) / ((40 : Nat) : ℚ)))) :=
  have hsc : lrp_scale_w 40 80 = true := by decide
  have hth : lrp_target_h 40 80 100 100 = 50 := by
    rw [lrp_target_h, if_pos hsc,
      show (((40 : Nat) : ℚ) * ((100 : Nat) : ℚ) / ((80 : Nat) : ℚ)) = ((50 : ℤ) : ℚ) by
        push_cast; norm_num,
      roundHalfEven_intCast]
  have htw : lrp_target_w 40 80 100 100 = 100 := by
    rw [lrp_target_w, if_pos hsc]
    norm_num
  ⟨⟨by decide, by decide, by decide,
    by rw [htw]; decide, by rw [hth]; decide,
    by rw [htw]; norm_num, by rw [hth]; norm_num⟩,
   C9_amended_resize_pad_centered 40 80 100 100 (by decide) (by decide) (by decide) (by decide)
     (by rw [htw]; decide) (by rw [hth]; decide)
     (by rw [htw]; norm_num) (by rw [hth]; norm_num)⟩
